import Mathlib

/-!
# Shallow embedding of the ghost60 page-enhancement script

The repository consists of two near-identical JavaScript files
(`src/app.js` and `src/unnamed/part_000`) implementing three independent
behaviors wired up on page load:

* `load360ViewerScript` — conditional initialization of a panorama mount
  element (`.gw-pano`);
* `setupIntersectionObserver` — one-shot reveal of sections via an
  `IntersectionObserver` callback;
* `setupParallax` / `updateParallax` — a `requestAnimationFrame` loop that
  applies a clamped, scroll-proportional vertical translation to every
  `[data-parallax]` element.

The embedding models DOM elements as records holding exactly the fields the
script reads or writes, JavaScript numbers as `Option ℚ` (with `none`
standing for `NaN`), and the side effects of each callback as explicit
state transformers together with effect traces.
-/

set_option autoImplicit false

namespace Ghost60

/-! ## JavaScript numbers

The script manipulates numbers through `parseFloat`, `Math.min`, `Math.max`
and multiplication.  `parseFloat` returns `NaN` on malformed input, and all
of `Math.min`, `Math.max` and `*` propagate `NaN`.  We model a JS number as
`Option ℚ`, `none` standing for `NaN`.  (Floating-point rounding is not
modelled; every concrete value exercised here is exact in both systems.) -/

/-- `Math.max`: returns `NaN` when either argument is `NaN`. -/
def jsMax : Option ℚ → Option ℚ → Option ℚ
  | some a, some b => some (max a b)
  | _, _ => none

/-- `Math.min`: returns `NaN` when either argument is `NaN`. -/
def jsMin : Option ℚ → Option ℚ → Option ℚ
  | some a, some b => some (min a b)
  | _, _ => none

/-- JS multiplication: `NaN` absorbs. -/
def jsMul : Option ℚ → Option ℚ → Option ℚ
  | some a, some b => some (a * b)
  | _, _ => none

/-- How a JS number renders inside a template literal: `NaN` prints as
`"NaN"`, finite values print their decimal form (rendered here through
`ℚ`'s `toString`; identical on the integral values exercised). -/
def numToString : Option ℚ → String
  | none => "NaN"
  | some q => toString q

/-- Longest leading run of decimal digits of a character list, together
with the remaining characters (`parseFloat` consumes such runs). -/
def digitsPrefixOf : List Char → List Char × List Char
  | [] => ([], [])
  | c :: rest =>
    if c.isDigit then
      let p := digitsPrefixOf rest
      (c :: p.1, p.2)
    else ([], c :: rest)

/-- Numeric value of a digit run, most significant first. -/
def digitsVal (l : List Char) : Nat :=
  l.foldl (fun a c => a * 10 + (c.toNat - 48)) 0

/-- Structural phase of `parseFloat`: skip leading whitespace, optional
sign, integer digits, optional `.` and fraction digits; `none` when no
digit is found.  Yields the sign bit, the integer-part value, the
fraction-part value and the fraction length.  Trailing garbage is
ignored, as in JS.  (Scientific notation is not modelled; no attribute in
scope uses it.) -/
def parseFloatParts (s : String) : Option (Bool × Nat × Nat × Nat) :=
  let cs := s.data.dropWhile Char.isWhitespace
  let signAndRest : Bool × List Char :=
    match cs with
    | '-' :: r => (true, r)
    | '+' :: r => (false, r)
    | _ => (false, cs)
  let ip := digitsPrefixOf signAndRest.2
  let fp : List Char :=
    match ip.2 with
    | '.' :: r => (digitsPrefixOf r).1
    | _ => []
  if ip.1 = [] ∧ fp = [] then none
  else some (signAndRest.1, digitsVal ip.1, digitsVal fp, fp.length)

/-- Numeric value of the parts produced by `parseFloatParts`. -/
def partsToRat : Bool × Nat × Nat × Nat → ℚ
  | (neg, ipv, fpv, fpl) =>
    (if neg then (-1 : ℚ) else 1) * ((ipv : ℚ) + (fpv : ℚ) / 10 ^ fpl)

/-- `parseFloat` as used on `el.dataset.parallax` (src/app.js line 88):
`NaN` (i.e. `none`) on malformed input, otherwise the decimal value. -/
def parseFloat (s : String) : Option ℚ :=
  (parseFloatParts s).map partsToRat

/-! ## PanoramaLoader (`load360ViewerScript`, src/app.js lines 11-30)

The pano mount is `document.querySelector('.gw-pano')`, modelled as an
optional element carrying its `data-src` attribute and its current
`innerHTML`.  Console output is modelled as a list of message tags (the
exact diagnostic text plays no role in any observable contract).  The
commented-out script injection is modelled by the `scriptLoaded` flag,
which `load360ViewerScript` never sets. -/

/-- The `.gw-pano` mount element: `dataset.src` and `innerHTML`. -/
structure PanoEl where
  dataSrc : Option String
  innerHTML : String
  deriving DecidableEq, Repr

/-- Tags for the four `console.log` calls in the script. -/
inductive ConsoleMsg where
  | panoFound
  | panoNotFound
  | parallaxDisabled
  | parallaxActive
  deriving DecidableEq, Repr

/-- Document state visible to `load360ViewerScript`: the optional mount
element, whether any viewer script has been injected, and the console. -/
structure PanoDoc where
  pano : Option PanoEl
  scriptLoaded : Bool
  consoleLog : List ConsoleMsg
  deriving DecidableEq, Repr

/-- A missing `data-src` attribute interpolates as `"undefined"` in the
JS template literal. -/
def dataSrcText : Option String → String
  | none => "undefined"
  | some s => s

/-- The confirmation markup written into the mount element
(src/app.js line 24), with the source identifier interpolated. -/
def panoMarkup (src : String) : String :=
  "<p class=\"text-lg text-indigo-700 font-semibold\">360 Viewer Initialized! (Source: " ++
    src ++ ")</p>"

/-- `load360ViewerScript` (src/app.js lines 11-30): if the mount element
is present, log the found message and overwrite its `innerHTML` with the
confirmation markup; otherwise only log the not-found message. -/
def load360ViewerScript (d : PanoDoc) : PanoDoc :=
  match d.pano with
  | some el =>
    { d with
      consoleLog := d.consoleLog ++ [ConsoleMsg.panoFound],
      pano := some { el with innerHTML := panoMarkup (dataSrcText el.dataSrc) } }
  | none =>
    { d with consoleLog := d.consoleLog ++ [ConsoleMsg.panoNotFound] }

/-! ## RevealController (`setupIntersectionObserver`, src/app.js lines 37-64)

Each observed section is modelled with the fields the callback touches:
the optional `.section-content` wrapper (with its inline `transition`
style), the section's class list, and whether the observer is still
watching it.  The callback body (lines 41-55) is embedded as a function
from a section and its `isIntersecting` flag to the updated section plus
the ordered trace of DOM effects it performs. -/

/-- The `.section-content` wrapper inside a section: its inline
`style.transition` (set when reduced motion is preferred). -/
structure CWrap where
  transition : Option String
  deriving DecidableEq, Repr

/-- An observed section: optional content wrapper, class list, and
whether the observer is still watching it. -/
structure RSection where
  content : Option CWrap
  classes : List String
  observed : Bool
  deriving DecidableEq, Repr

/-- The DOM effects an intersection-callback entry can perform, in the
order the code performs them. -/
inductive REffect where
  | setTransition (v : String)
  | addClass (c : String)
  | unobserve
  deriving DecidableEq, Repr

/-- `classList.add`: a no-op when the class is already present. -/
def classListAdd (l : List String) (c : String) : List String :=
  if c ∈ l then l else l ++ [c]

/-- One entry of the `IntersectionObserver` callback in `src/app.js`
(lines 41-55): look up `.section-content`; if present and the entry
intersects, optionally kill the wrapper's transition (reduced motion),
add `is-visible`, and unobserve the target.  Returns the updated section
and the ordered effect trace. -/
def processEntryE (prefersReducedMotion : Bool) (s : RSection) (isIntersecting : Bool) :
    RSection × List REffect :=
  match s.content with
  | none => (s, [])
  | some c =>
    if isIntersecting then
      let cT := if prefersReducedMotion then { c with transition := some "none" } else c
      let eT : List REffect :=
        if prefersReducedMotion then [REffect.setTransition "none"] else []
      ({ s with
          content := some cT,
          classes := classListAdd s.classes "is-visible",
          observed := false },
        eT ++ [REffect.addClass "is-visible", REffect.unobserve])
    else (s, [])

/-- State part of `processEntryE`. -/
def processEntry (r : Bool) (s : RSection) (i : Bool) : RSection :=
  (processEntryE r s i).1

/-- Folding a sequence of callback entries for one section: each entry
carries that frame's `isIntersecting` flag. -/
def runEntries (r : Bool) (s : RSection) : List Bool → RSection
  | [] => s
  | i :: rest => runEntries r (processEntry r s i) rest

/-- A generic document element, for comparing the two files' section
enumeration: its tag name and class list. -/
structure DElem where
  tag : String
  classes : List String
  deriving DecidableEq, Repr

/-- `document.querySelectorAll('section')` in `src/app.js` line 38: the
elements `setupIntersectionObserver` enumerates and observes. -/
def observedSections_app (doc : List DElem) : List DElem :=
  doc.filter (fun e => e.tag == "section")

/-- `document.querySelectorAll('.gw-chapter')` in `src/unnamed/part_000`
line 37: the elements its `setupIntersectionObserver` enumerates. -/
def observedSections_part000 (doc : List DElem) : List DElem :=
  doc.filter (fun e => e.classes.contains "gw-chapter")

/-- The `IntersectionObserver` callback body of `src/unnamed/part_000`
(lines 40-58), transcribed from that file: same shape as the `app.js`
callback. -/
def processEntryE_part000 (prefersReducedMotion : Bool) (s : RSection) (isIntersecting : Bool) :
    RSection × List REffect :=
  match s.content with
  | none => (s, [])
  | some c =>
    if isIntersecting then
      let cT := if prefersReducedMotion then { c with transition := some "none" } else c
      let eT : List REffect :=
        if prefersReducedMotion then [REffect.setTransition "none"] else []
      ({ s with
          content := some cT,
          classes := classListAdd s.classes "is-visible",
          observed := false },
        eT ++ [REffect.addClass "is-visible", REffect.unobserve])
    else (s, [])

/-! ## ParallaxController (`setupParallax`, src/app.js lines 70-108)

`setupParallax` returns immediately when reduced motion is preferred —
before querying any element and without ever calling
`requestAnimationFrame`.  Otherwise it snapshots the `[data-parallax]`
elements, records the scroll baseline and starts the frame loop.  The
loop body `updateParallax` (lines 81-103) is embedded as a step function
on the captured state, parameterized by the frame's `window.scrollY`; it
returns the new state, the ordered list of transform strings written this
frame (one per element when scroll changed, none otherwise), and whether
the next frame is scheduled (always). -/

/-- `PARALLAX_MAX_STRENGTH` (src/app.js line 2). -/
def PARALLAX_MAX_STRENGTH : ℚ := 3 / 10

/-- A `[data-parallax]` element: its `dataset.parallax` attribute text
and its inline `style.transform`. -/
structure PElem where
  dataParallax : String
  styleTransform : Option String
  deriving DecidableEq, Repr

/-- State captured by the `updateParallax` closure: the snapshotted
element list and the mutable `lastScrollY` baseline. -/
structure PState where
  parallaxElements : List PElem
  lastScrollY : ℚ
  deriving DecidableEq, Repr

/-- The transform string computed for one element on a changed-scroll
frame (src/app.js lines 88-97): parse the strength, clamp it to
`[0, PARALLAX_MAX_STRENGTH]`, multiply by scroll and `-1`, interpolate. -/
def elementTransform (currentScrollY : ℚ) (el : PElem) : String :=
  let strength := parseFloat el.dataParallax
  let clampedStrength := jsMin (jsMax (some 0) strength) (some PARALLAX_MAX_STRENGTH)
  let movement := jsMul (jsMul (some currentScrollY) clampedStrength) (some (-1))
  "translateY(" ++ numToString movement ++ "px)"

/-- One tick of `updateParallax` (src/app.js lines 81-103): if the scroll
position changed, update the baseline and rewrite every element's
transform; otherwise do nothing.  Either way request the next frame
(the trailing `Bool`). -/
def updateParallax (st : PState) (currentScrollY : ℚ) : PState × List String × Bool :=
  if currentScrollY ≠ st.lastScrollY then
    ({ parallaxElements :=
        st.parallaxElements.map
          (fun el => { el with styleTransform := some (elementTransform currentScrollY el) }),
       lastScrollY := currentScrollY },
      st.parallaxElements.map (elementTransform currentScrollY), true)
  else (st, [], true)

/-- `setupParallax` (src/app.js lines 70-108): `none` when reduced motion
is preferred — the function returns before enumerating elements and never
schedules a frame; otherwise the initial loop state (elements snapshot,
scroll baseline). -/
def setupParallax (prefersReducedMotion : Bool) (els : List PElem) (scrollY : ℚ) :
    Option PState :=
  if prefersReducedMotion then none
  else some { parallaxElements := els, lastScrollY := scrollY }

/-- Run the frame loop over a list of per-frame scroll positions,
collecting every transform write in order. -/
def runFrames (st : PState) : List ℚ → PState × List String
  | [] => (st, [])
  | y :: ys =>
    let r := updateParallax st y
    let rest := runFrames r.1 ys
    (rest.1, r.2.1 ++ rest.2)

/-- All transform writes the parallax component performs over a page
lifetime: none at all when `setupParallax` declined to start the loop. -/
def parallaxWrites (prefersReducedMotion : Bool) (els : List PElem) (scrollY : ℚ)
    (frames : List ℚ) : List String :=
  match setupParallax prefersReducedMotion els scrollY with
  | none => []
  | some st => (runFrames st frames).2

/-! ## Helper lemmas -/

/-- Adding a class that is already present leaves the class list as is. -/
lemma classListAdd_mem {l : List String} {c : String} (h : c ∈ l) :
    classListAdd l c = l := by
  simp [classListAdd, h]

/-- The added class is a member of the resulting class list. -/
lemma mem_classListAdd (l : List String) (c : String) : c ∈ classListAdd l c := by
  by_cases h : c ∈ l <;> simp [classListAdd, h]

/-- A section in the revealed shape — unobserved, flagged visible, and
(under reduced motion) with its wrapper transition already killed — is a
fixed point of the intersection callback. -/
lemma processEntry_revealed_fix (r : Bool) (s : RSection) (j : Bool)
    (hobs : s.observed = false)
    (hvis : "is-visible" ∈ s.classes)
    (htr : ∀ c, s.content = some c → r = true → c.transition = some "none") :
    processEntry r s j = s := by
  obtain ⟨co, cl, ob⟩ := s
  cases co with
  | none => cases j <;> simp [processEntry, processEntryE]
  | some c =>
    cases j with
    | false => simp [processEntry, processEntryE]
    | true =>
      cases r with
      | false =>
        simp only [processEntry, processEntryE]
        simp_all [classListAdd_mem]
      | true =>
        have ht : c.transition = some "none" := htr c rfl rfl
        obtain ⟨ctr⟩ := c
        simp only at ht
        subst ht
        simp only [processEntry, processEntryE]
        simp_all [classListAdd_mem]

/-- A fixed point of the callback is fixed under any entry sequence. -/
lemma runEntries_fix (r : Bool) (s : RSection)
    (h : ∀ j, processEntry r s j = s) : ∀ l, runEntries r s l = s := by
  intro l
  induction l with
  | nil => rfl
  | cons j rest ih => simp [runEntries, h j, ih]

/-- `parseFloat "0.5"` evaluates to `1/2`. -/
lemma parseFloat_half : parseFloat "0.5" = some (1 / 2) := by
  have h : parseFloatParts "0.5" = some (false, 0, 5, 1) := rfl
  rw [parseFloat, h]
  norm_num [partsToRat]

/-! ## Claims -/

/-- C4: If no element matches the panorama mount selector, the load
operation performs no DOM mutation and no script initialization and emits
no console found message: the whole document state apart from the console
is unchanged, and the console only gains the not-found message. -/
theorem load360_absent_no_mutation (d : PanoDoc) (h : d.pano = none) :
    load360ViewerScript d =
      { d with consoleLog := d.consoleLog ++ [ConsoleMsg.panoNotFound] } ∧
    (ConsoleMsg.panoFound ∉ d.consoleLog →
      ConsoleMsg.panoFound ∉ (load360ViewerScript d).consoleLog) := by
  constructor
  · simp [load360ViewerScript, h]
  · intro hnot
    simp [load360ViewerScript, h, hnot]

/-- Witness for C4 at the concrete empty document. -/
theorem load360_absent_no_mutation_witness :
    load360ViewerScript ⟨none, false, []⟩ =
      { (⟨none, false, []⟩ : PanoDoc) with
        consoleLog := ([] : List ConsoleMsg) ++ [ConsoleMsg.panoNotFound] } ∧
    (ConsoleMsg.panoFound ∉ ([] : List ConsoleMsg) →
      ConsoleMsg.panoFound ∉ (load360ViewerScript ⟨none, false, []⟩).consoleLog) :=
  load360_absent_no_mutation ⟨none, false, []⟩ rfl

/-- C5: If the panorama mount element is present with source data
attribute `x`, after the load operation its content equals exactly the
confirmation markup embedding `x`. -/
theorem load360_present_markup (d : PanoDoc) (el : PanoEl) (x : String)
    (h1 : d.pano = some el) (h2 : el.dataSrc = some x) :
    (load360ViewerScript d).pano = some { el with innerHTML := panoMarkup x } := by
  simp [load360ViewerScript, h1, dataSrcText, h2]

/-- Witness for C5: data-src `"X"` yields the exact confirmation string. -/
theorem load360_present_markup_witness :
    panoMarkup "X" =
      "<p class=\"text-lg text-indigo-700 font-semibold\">360 Viewer Initialized! (Source: X)</p>" ∧
    (load360ViewerScript ⟨some ⟨some "X", "placeholder"⟩, false, []⟩).pano =
      some { (⟨some "X", "placeholder"⟩ : PanoEl) with innerHTML := panoMarkup "X" } :=
  ⟨rfl, load360_present_markup ⟨some ⟨some "X", "placeholder"⟩, false, []⟩
    ⟨some "X", "placeholder"⟩ "X" rfl rfl⟩

/-- C3: For an observed section, the visibility flag transitions at most
once: if a callback entry applies the flag, the resulting section is
unobserved, and every later sequence of callback entries for that section
leaves it completely unchanged (the revealed state is terminal). -/
theorem reveal_at_most_once (r : Bool) (s : RSection) (i : Bool)
    (hobs : s.observed = true)
    (hbefore : "is-visible" ∉ s.classes)
    (hafter : "is-visible" ∈ (processEntry r s i).classes) :
    (processEntry r s i).observed = false ∧
    ∀ l, runEntries r (processEntry r s i) l = processEntry r s i := by
  cases hc : s.content with
  | none =>
    exfalso
    apply hbefore
    simpa [processEntry, processEntryE, hc] using hafter
  | some c =>
    cases i with
    | false =>
      exfalso
      apply hbefore
      simpa [processEntry, processEntryE, hc] using hafter
    | true =>
      have hstep : processEntry r s true =
          { s with
            content := some (if r then { c with transition := some "none" } else c),
            classes := classListAdd s.classes "is-visible",
            observed := false } := by
        simp [processEntry, processEntryE, hc]
      refine ⟨by rw [hstep], runEntries_fix r _ ?_⟩
      intro j
      apply processEntry_revealed_fix
      · rw [hstep]
      · rw [hstep]
        exact mem_classListAdd s.classes "is-visible"
      · intro c' hc' hr
        subst hr
        rw [hstep] at hc'
        simp only [if_true, Option.some.injEq] at hc'
        rw [← hc']

/-- Witness for C3 at a concrete observed, unrevealed section. -/
theorem reveal_at_most_once_witness :
    (processEntry true ⟨some ⟨none⟩, [], true⟩ true).observed = false ∧
    ∀ l, runEntries true (processEntry true ⟨some ⟨none⟩, [], true⟩ true) l =
      processEntry true ⟨some ⟨none⟩, [], true⟩ true :=
  reveal_at_most_once true ⟨some ⟨none⟩, [], true⟩ true rfl (by decide) (by decide)

/-- C6: A callback entry for a section without a content wrapper changes
nothing and performs no effect — no visibility flag, no unobserve —
whatever the intersection flag says. -/
theorem reveal_no_content_skips (r : Bool) (s : RSection) (i : Bool)
    (h : s.content = none) :
    processEntryE r s i = (s, []) := by
  simp [processEntryE, h]

/-- Witness for C6 at a concrete wrapperless intersecting section. -/
theorem reveal_no_content_skips_witness :
    processEntryE true ⟨none, [], true⟩ true = (⟨none, [], true⟩, []) :=
  reveal_no_content_skips true ⟨none, [], true⟩ true rfl

/-- C9: Under reduced motion, an entry for an observed section with a
content wrapper that intersects performs exactly: set the wrapper's
transition to none, add the is-visible class, unobserve — in that
order. -/
theorem reveal_reducedMotion_effect_order (s : RSection) (c : CWrap)
    (hc : s.content = some c) (hobs : s.observed = true) :
    (processEntryE true s true).2 =
      [REffect.setTransition "none", REffect.addClass "is-visible",
        REffect.unobserve] := by
  simp [processEntryE, hc]

/-- Witness for C9 at a concrete section. -/
theorem reveal_reducedMotion_effect_order_witness :
    (processEntryE true ⟨some ⟨none⟩, [], true⟩ true).2 =
      [REffect.setTransition "none", REffect.addClass "is-visible",
        REffect.unobserve] :=
  reveal_reducedMotion_effect_order ⟨some ⟨none⟩, [], true⟩ ⟨none⟩ rfl rfl

/-- C10 counterexample: the two files do not enumerate the same elements
on every document — a bare `section` element without the `gw-chapter`
class is observed by `src/app.js` but not by `src/unnamed/part_000`. -/
theorem observedSections_app_ne_part000 :
    observedSections_app [⟨"section", []⟩] ≠
      observedSections_part000 [⟨"section", []⟩] := by
  decide

/-- C10 (amended): the per-entry callback logic of the two files is the
same function, and the enumerated element sets coincide exactly on
documents where carrying the `section` tag and carrying the `gw-chapter`
class agree elementwise. -/
theorem setupIntersectionObserver_equiv (r : Bool) (s : RSection) (i : Bool)
    (doc : List DElem)
    (h : ∀ e ∈ doc, (e.tag == "section") = e.classes.contains "gw-chapter") :
    processEntryE r s i = processEntryE_part000 r s i ∧
    observedSections_app doc = observedSections_part000 doc := by
  refine ⟨rfl, ?_⟩
  unfold observedSections_app observedSections_part000
  exact List.filter_congr h

/-- Witness for the amended C10 on a document of one chapter section. -/
theorem setupIntersectionObserver_equiv_witness :
    processEntryE true ⟨some ⟨none⟩, [], true⟩ true =
      processEntryE_part000 true ⟨some ⟨none⟩, [], true⟩ true ∧
    observedSections_app [⟨"section", ["gw-chapter"]⟩] =
      observedSections_part000 [⟨"section", ["gw-chapter"]⟩] :=
  setupIntersectionObserver_equiv true ⟨some ⟨none⟩, [], true⟩ true
    [⟨"section", ["gw-chapter"]⟩] (by decide)

/-- C2: When reduced motion is preferred at startup, `setupParallax`
never builds a loop state (returning before enumerating any element and
never scheduling a frame), and across any sequence of frames and scroll
positions not a single transform write happens. -/
theorem setupParallax_reducedMotion_noop (els : List PElem) (scrollY : ℚ)
    (frames : List ℚ) :
    setupParallax true els scrollY = none ∧
    parallaxWrites true els scrollY frames = [] :=
  ⟨rfl, rfl⟩

/-- C7: On a frame whose scroll position equals the stored baseline,
`updateParallax` leaves the state — every element's transform and the
baseline — untouched and writes nothing, yet still requests the next
frame; and the next frame is requested on every tick whatsoever. -/
theorem updateParallax_unchanged_scroll_noop (st : PState) :
    updateParallax st st.lastScrollY = (st, [], true) ∧
    ∀ y, (updateParallax st y).2.2 = true := by
  constructor
  · simp [updateParallax]
  · intro y
    by_cases h : y = st.lastScrollY <;> simp [updateParallax, h]

/-- C1: On a changed-scroll frame, an element whose strength attribute
parses to `s` gets its transform assigned exactly
`translateY({y * min(max(0, s), 3/10) * -1}px)`. -/
theorem updateParallax_strength_offset (st : PState) (y : ℚ) (i : ℕ)
    (hi : i < st.parallaxElements.length) (s : ℚ)
    (hp : parseFloat (st.parallaxElements[i]).dataParallax = some s)
    (hy : y ≠ st.lastScrollY) :
    (updateParallax st y).1.parallaxElements[i]? =
      some { st.parallaxElements[i] with
             styleTransform := some
               ("translateY(" ++ toString (y * min (max 0 s) ((3 : ℚ) / 10) * -1) ++
                 "px)") } := by
  unfold updateParallax
  rw [if_pos hy]
  simp only [List.getElem?_map, List.getElem?_eq_getElem hi, Option.map_some]
  simp [elementTransform, hp, jsMax, jsMin, jsMul, numToString, PARALLAX_MAX_STRENGTH]

/-- Witness for C1: strength `"0.5"` with scroll `200` (baseline `0`)
clamps to `3/10` and yields the offset `-60px`. -/
theorem updateParallax_strength_offset_witness :
    parseFloat "0.5" = some (1 / 2) ∧
    (updateParallax ⟨[⟨"0.5", none⟩], 0⟩ 200).1.parallaxElements[0]? =
      some ⟨"0.5", some "translateY(-60px)"⟩ := by
  refine ⟨parseFloat_half, ?_⟩
  have h := updateParallax_strength_offset ⟨[⟨"0.5", none⟩], 0⟩ 200 0 (by decide)
    (1 / 2) parseFloat_half (by norm_num)
  have hq : (200 : ℚ) * min (max 0 (1 / 2)) ((3 : ℚ) / 10) * -1 = -60 := by norm_num
  rw [hq] at h
  simpa using h

/-- C8: On a changed-scroll frame, an element whose strength attribute
does not parse as a number gets the not-a-number transform
`translateY(NaNpx)` written unguarded, both into its style and into the
frame's write trace — no branch skips the element. -/
theorem updateParallax_malformed_strength_NaN (st : PState) (y : ℚ) (i : ℕ)
    (hi : i < st.parallaxElements.length)
    (hp : parseFloat (st.parallaxElements[i]).dataParallax = none)
    (hy : y ≠ st.lastScrollY) :
    (updateParallax st y).1.parallaxElements[i]? =
      some { st.parallaxElements[i] with
             styleTransform := some "translateY(NaNpx)" } ∧
    (updateParallax st y).2.1[i]? = some "translateY(NaNpx)" := by
  unfold updateParallax
  rw [if_pos hy]
  constructor
  · simp only [List.getElem?_map, List.getElem?_eq_getElem hi, Option.map_some]
    simp [elementTransform, hp, jsMax, jsMin, jsMul, numToString]
  · simp only [List.getElem?_map, List.getElem?_eq_getElem hi, Option.map_some]
    simp [elementTransform, hp, jsMax, jsMin, jsMul, numToString]

/-- Witness for C8: strength `"abc"` with scroll `100` writes
`translateY(NaNpx)`. -/
theorem updateParallax_malformed_strength_NaN_witness :
    parseFloat "abc" = none ∧
    (updateParallax ⟨[⟨"abc", none⟩], 0⟩ 100).1.parallaxElements[0]? =
      some ⟨"abc", some "translateY(NaNpx)"⟩ ∧
    (updateParallax ⟨[⟨"abc", none⟩], 0⟩ 100).2.1[0]? =
      some "translateY(NaNpx)" := by
  refine ⟨by decide, ?_⟩
  have h := updateParallax_malformed_strength_NaN ⟨[⟨"abc", none⟩], 0⟩ 100 0
    (by decide) (by decide) (by decide)
  simpa using h

end Ghost60
